import Mathlib

/-!
Shallow embedding of the Stanislav2205/fast_api_1 advertisements service
(src/app/main.py, src/app/auth.py, src/app/models.py, src/app/schemas.py).

Persistence is modelled as an explicit `DBState` threaded through each
handler; each FastAPI endpoint becomes a function from its inputs and the
current state to an `Except HErr result × DBState` pair (an `HTTPException`
raised by the Python handler becomes `.error`).  The JWT library (`jose`)
is external, so token decoding is a parameter `decode : String → JwtResult`
of the resolvers; the bcrypt hasher is likewise a parameter
`hashF : String → String`.  Machine floats (`price`) carry no arithmetic in
the modelled paths and are embedded as `Rat`.
-/

namespace Ads

/-- Outcome of `jose.jwt.decode` on a token string: `jwtError` models a
raised `JWTError` (malformed token, bad signature, expired), `payload sub`
models a successful decode whose `"sub"` claim is `sub` (`none` when the
claim is missing, as `payload.get("sub")` returns `None`). -/
inductive JwtResult where
  | jwtError : JwtResult
  | payload (sub : Option String) : JwtResult
deriving DecidableEq

/-- The bearer credential attached to a request: the `Authorization` header
is either absent or carries a token string. -/
inductive TokenInput where
  | absent : TokenInput
  | present (token : String) : TokenInput
deriving DecidableEq

/-- models.py `User` ORM row: id, unique username, bcrypt password hash,
group string (defaulting to "user" at the schema layer). -/
structure User where
  id : Nat
  username : String
  password : String
  group : String
deriving DecidableEq

/-- models.py `Advertisement` ORM row; `owner_id` is nullable
(`Column(Integer, nullable=True)`), `created_at` defaults to the server
clock at insert time. -/
structure Advertisement where
  id : Nat
  title : String
  description : String
  price : Rat
  author : String
  created_at : Nat
  owner_id : Option Nat
deriving DecidableEq

/-- schemas.py `UserCreate` request body (`group` defaults to "user" on the
pydantic side; here it is the already-defaulted value). -/
structure UserCreate where
  username : String
  password : String
  group : String
deriving DecidableEq

/-- schemas.py `UserUpdate`: every field optional; `none` models a field
absent from the PATCH body (not included by `model_dump(exclude_unset=True)`). -/
structure UserUpdate where
  username : Option String
  password : Option String
  group : Option String
deriving DecidableEq

/-- schemas.py `AdvertisementCreate` request body. -/
structure AdvertisementCreate where
  title : String
  description : String
  price : Rat
  author : String
deriving DecidableEq

/-- schemas.py `AdvertisementUpdate`: only title/description/price/author
are patchable; there is no `owner_id` field in the update schema. -/
structure AdvertisementUpdate where
  title : Option String
  description : Option String
  price : Option Rat
  author : Option String
deriving DecidableEq

/-- schemas.py `UserResponse` (id, username, group). -/
structure UserResponse where
  id : Nat
  username : String
  group : String
deriving DecidableEq

/-- schemas.py `LoginRequest`. -/
structure LoginRequest where
  username : String
  password : String
deriving DecidableEq

/-- schemas.py `LoginResponse`. -/
structure LoginResponse where
  token : String
deriving DecidableEq

/-- An HTTPException as raised by the handlers: status code, detail string,
and the optional `WWW-Authenticate` header value (`headers={"WWW-Authenticate": "Bearer"}`
in auth.py becomes `some "Bearer"`; every other raise passes no headers). -/
structure HErr where
  status : Nat
  detail : String
  wwwAuthenticate : Option String
deriving DecidableEq

/-- The relational store: the users and advertisements tables, the next
autoincrement ids, and the server clock used for `created_at` defaults. -/
structure DBState where
  users : List User
  ads : List Advertisement
  nextUserId : Nat
  nextAdId : Nat
  now : Nat
deriving DecidableEq

/-- `select(User).where(User.username == name)` + `scalar_one_or_none()`. -/
def findUserByUsername (s : DBState) (name : String) : Option User :=
  s.users.find? (fun u => u.username == name)

/-- `select(User).where(User.id == n)` + `scalar_one_or_none()`. -/
def findUserById (s : DBState) (n : Nat) : Option User :=
  s.users.find? (fun u => u.id == n)

/-- `select(Advertisement).where(Advertisement.id == n)` + `scalar_one_or_none()`. -/
def findAdById (s : DBState) (n : Nat) : Option Advertisement :=
  s.ads.find? (fun a => a.id == n)

/-- auth.py lines 43-47: the shared `credentials_exception`
(401, "Could not validate credentials", WWW-Authenticate: Bearer). -/
def credentialsException : HErr :=
  ⟨401, "Could not validate credentials", some "Bearer"⟩

/-- fastapi.security.HTTPBearer with `auto_error=True` (auth.py line 21,
`security = HTTPBearer()`): when the Authorization header is absent the
framework raises HTTPException(403, "Not authenticated") before the
dependent `get_current_user` runs, with no WWW-Authenticate header. -/
def notAuthenticated : HErr :=
  ⟨403, "Not authenticated", none⟩

/-- main.py "Authentication required" 401 raised by create_ad / update_ad /
delete_ad when the optional identity is None; no headers argument. -/
def authRequired : HErr :=
  ⟨401, "Authentication required", none⟩

/-- main.py "Insufficient permissions" 403. -/
def insufficientPermissions : HErr :=
  ⟨403, "Insufficient permissions", none⟩

/-- main.py line 99-102: 403 "Only admin can change user group". -/
def onlyAdminGroup : HErr :=
  ⟨403, "Only admin can change user group", none⟩

/-- main.py 400 "Group must be 'user' or 'admin'". -/
def invalidGroup : HErr :=
  ⟨400, "Group must be 'user' or 'admin'", none⟩

/-- main.py 400 "Username already registered" (create_user and the
update_user rename path). -/
def usernameConflict : HErr :=
  ⟨400, "Username already registered", none⟩

/-- main.py 404 "User not found". -/
def userNotFound : HErr :=
  ⟨404, "User not found", none⟩

/-- main.py 404 "Advertisement not found". -/
def adNotFound : HErr :=
  ⟨404, "Advertisement not found", none⟩

/-- main.py login 401 "Incorrect username or password"; no headers argument. -/
def loginFailed : HErr :=
  ⟨401, "Incorrect username or password", none⟩

/-- Unreachable re-select-after-update branch (row vanished between the
UPDATE and the SELECT inside one handler): the Python handler would fail
response serialization, surfacing as a generic server error. -/
def serverError : HErr :=
  ⟨500, "Internal Server Error", none⟩

/-- auth.py `get_current_user` (lines 39-61) composed with its
`security = HTTPBearer()` dependency: absent header → framework 403;
decode failure or missing "sub" → `credentials_exception`; user lookup by
subject username, `None` → `credentials_exception`.  `get_current_active_user`
(lines 82-85) returns this user unchanged. -/
def get_current_user (decode : String → JwtResult) (tok : TokenInput)
    (s : DBState) : Except HErr User :=
  match tok with
  | .absent => .error notAuthenticated
  | .present t =>
    match decode t with
    | .jwtError => .error credentialsException
    | .payload none => .error credentialsException
    | .payload (some username) =>
      match findUserByUsername s username with
      | none => .error credentialsException
      | some u => .ok u

/-- auth.py `get_optional_user` (lines 63-80), with
`HTTPBearer(auto_error=False)`: absent credentials, decode failure, missing
"sub", and no matching user all return `None`; never raises. -/
def get_optional_user (decode : String → JwtResult) (tok : TokenInput)
    (s : DBState) : Option User :=
  match tok with
  | .absent => none
  | .present t =>
    match decode t with
    | .jwtError => none
    | .payload none => none
    | .payload (some username) => findUserByUsername s username

/-- Projection to the `UserResponse` schema used by the user endpoints. -/
def toUserResponse (u : User) : UserResponse :=
  ⟨u.id, u.username, u.group⟩

/-- main.py `login` (lines 28-40): look up by username; missing user or a
failing password check both raise the same 401; otherwise issue a token for
the username.  Password verification and token minting live in external
libraries (passlib / jose) and are parameters. -/
def login (verifyPw : String → String → Bool) (issueTok : String → String)
    (req : LoginRequest) (s : DBState) : Except HErr LoginResponse :=
  match findUserByUsername s req.username with
  | none => .error loginFailed
  | some u =>
    if verifyPw req.password u.password then .ok ⟨issueTok u.username⟩
    else .error loginFailed

/-- main.py `create_user` (lines 42-66): duplicate-username check first,
then the group whitelist, then insert with the hashed password.  The
endpoint has no authentication dependency at all, so the caller's identity
(anonymous included) never enters the computation. -/
def create_user (hashF : String → String) (payload : UserCreate)
    (s : DBState) : Except HErr UserResponse × DBState :=
  match findUserByUsername s payload.username with
  | some _ => (.error usernameConflict, s)
  | none =>
    if payload.group ≠ "user" ∧ payload.group ≠ "admin" then
      (.error invalidGroup, s)
    else
      let u : User :=
        ⟨s.nextUserId, payload.username, hashF payload.password, payload.group⟩
      (.ok (toUserResponse u),
        { s with users := s.users ++ [u], nextUserId := s.nextUserId + 1 })

/-- main.py line 104: `user_update.group is not None and user_update.group
not in ["user", "admin"]`. -/
def groupValueInvalid : Option String → Bool
  | none => false
  | some g => !(g == "user" || g == "admin")

/-- `user_update.model_dump(exclude_unset=True)` is empty iff no field was
sent. -/
def userUpdEmpty (upd : UserUpdate) : Bool :=
  upd.username.isNone && upd.password.isNone && upd.group.isNone

/-- The row produced by `update(User).values(**update_data)` applied to one
row: fields present in the payload overwrite, absent fields keep their
stored value; a present password is stored hashed (main.py lines 110-112). -/
def applyUserUpdate (hashF : String → String) (u : User) (upd : UserUpdate) :
    User :=
  { u with
    username := upd.username.getD u.username
    password := (upd.password.map hashF).getD u.password
    group := upd.group.getD u.group }

/-- The store after `update(User).where(User.id == user_id).values(**update_data)`. -/
def userWriteState (hashF : String → String) (user_id : Nat)
    (upd : UserUpdate) (s : DBState) : DBState :=
  { s with users :=
      s.users.map (fun x =>
        if x.id == user_id then applyUserUpdate hashF x upd else x) }

/-- main.py lines 110-129: run the UPDATE only when the payload is
non-empty, then re-select the row and serialize it. -/
def user_write (hashF : String → String) (user_id : Nat) (upd : UserUpdate)
    (user : User) (s : DBState) : Except HErr UserResponse × DBState :=
  if userUpdEmpty upd then (.ok (toUserResponse user), s)
  else
    match findUserById (userWriteState hashF user_id upd s) user_id with
    | some u2 => (.ok (toUserResponse u2), userWriteState hashF user_id upd s)
    | none => (.error serverError, userWriteState hashF user_id upd s)

/-- main.py `update_user` (lines 80-129), after `get_current_active_user`
resolved `cu`: 404 on a missing target; 403 unless admin or self; 403 when
the payload carries a `group` value and the caller is not admin; 400 on a
group value outside the whitelist; 400 when renaming onto another user's
username; then the partial update. -/
def update_user (hashF : String → String) (user_id : Nat) (upd : UserUpdate)
    (cu : User) (s : DBState) : Except HErr UserResponse × DBState :=
  match findUserById s user_id with
  | none => (.error userNotFound, s)
  | some user =>
    if cu.group ≠ "admin" ∧ cu.id ≠ user_id then
      (.error insufficientPermissions, s)
    else if upd.group ≠ none ∧ cu.group ≠ "admin" then
      (.error onlyAdminGroup, s)
    else if groupValueInvalid upd.group then
      (.error invalidGroup, s)
    else
      match upd.username with
      | some newName =>
        match findUserByUsername s newName with
        | some ex =>
          if ex.id ≠ user_id then (.error usernameConflict, s)
          else user_write hashF user_id upd user s
        | none => user_write hashF user_id upd user s
      | none => user_write hashF user_id upd user s

/-- main.py `delete_user` (lines 131-150), after required auth resolved
`cu`: 404 on a missing target; 403 unless admin or self; then DELETE. -/
def delete_user (user_id : Nat) (cu : User) (s : DBState) :
    Except HErr String × DBState :=
  match findUserById s user_id with
  | none => (.error userNotFound, s)
  | some _ =>
    if cu.group ≠ "admin" ∧ cu.id ≠ user_id then
      (.error insufficientPermissions, s)
    else
      (.ok "User deleted",
        { s with users := s.users.filter (fun x => !(x.id == user_id)) })

/-- main.py `create_ad` (lines 152-170), after `get_optional_user` resolved
`cu`: 401 when anonymous; otherwise insert with `owner_id` bound to the
creator's id and a server-assigned `created_at`. -/
def create_ad (payload : AdvertisementCreate) (cu : Option User)
    (s : DBState) : Except HErr Advertisement × DBState :=
  match cu with
  | none => (.error authRequired, s)
  | some u =>
    let newAd : Advertisement :=
      ⟨s.nextAdId, payload.title, payload.description, payload.price,
        payload.author, s.now, some u.id⟩
    (.ok newAd,
      { s with ads := s.ads ++ [newAd], nextAdId := s.nextAdId + 1 })

/-- `ad_update.model_dump(exclude_unset=True)` is empty iff no field was
sent. -/
def adUpdEmpty (upd : AdvertisementUpdate) : Bool :=
  upd.title.isNone && upd.description.isNone && upd.price.isNone &&
    upd.author.isNone

/-- The row produced by `update(Advertisement).values(**update_data)`
applied to one row: present fields overwrite, absent fields keep their
stored value; `id`, `created_at` and `owner_id` are not in the update
schema and are untouched. -/
def applyAdUpdate (a : Advertisement) (upd : AdvertisementUpdate) :
    Advertisement :=
  { a with
    title := upd.title.getD a.title
    description := upd.description.getD a.description
    price := upd.price.getD a.price
    author := upd.author.getD a.author }

/-- The store after `update(Advertisement).where(Advertisement.id == ad_id).values(**update_data)`. -/
def adWriteState (ad_id : Nat) (upd : AdvertisementUpdate) (s : DBState) :
    DBState :=
  { s with ads :=
      s.ads.map (fun a =>
        if a.id == ad_id then applyAdUpdate a upd else a) }

/-- main.py lines 208-214: run the UPDATE only when the payload is
non-empty, then re-select the row. -/
def ad_write (ad_id : Nat) (upd : AdvertisementUpdate) (ad : Advertisement)
    (s : DBState) : Except HErr Advertisement × DBState :=
  if adUpdEmpty upd then (.ok ad, s)
  else
    match findAdById (adWriteState ad_id upd s) ad_id with
    | some ad2 => (.ok ad2, adWriteState ad_id upd s)
    | none => (.error serverError, adWriteState ad_id upd s)

/-- main.py `update_ad` (lines 183-214), after `get_optional_user` resolved
`cu`: existence first (404), then anonymous (401), then the ownership gate
(`if current_user.group != "admin": if ad.owner_id is None or ad.owner_id
!= current_user.id: 403`, flattened here to one conjunction), then the
partial update. -/
def update_ad (ad_id : Nat) (upd : AdvertisementUpdate) (cu : Option User)
    (s : DBState) : Except HErr Advertisement × DBState :=
  match findAdById s ad_id with
  | none => (.error adNotFound, s)
  | some ad =>
    match cu with
    | none => (.error authRequired, s)
    | some u =>
      if u.group ≠ "admin" ∧ (ad.owner_id = none ∨ ad.owner_id ≠ some u.id)
      then (.error insufficientPermissions, s)
      else ad_write ad_id upd ad s

/-- main.py `delete_ad` (lines 216-242): same ordering and ownership gate
as `update_ad`, then DELETE. -/
def delete_ad (ad_id : Nat) (cu : Option User) (s : DBState) :
    Except HErr String × DBState :=
  match findAdById s ad_id with
  | none => (.error adNotFound, s)
  | some ad =>
    match cu with
    | none => (.error authRequired, s)
    | some u =>
      if u.group ≠ "admin" ∧ (ad.owner_id = none ∨ ad.owner_id ≠ some u.id)
      then (.error insufficientPermissions, s)
      else
        (.ok "Advertisement deleted",
          { s with ads := s.ads.filter (fun a => !(a.id == ad_id)) })

/-- PATCH /user/{id} as served: FastAPI resolves the required-auth
dependency chain (`get_current_active_user` → `get_current_user` →
`HTTPBearer()`) before the handler body runs; a dependency failure becomes
the response and the handler never executes. -/
def update_user_endpoint (decode : String → JwtResult)
    (hashF : String → String) (tok : TokenInput) (user_id : Nat)
    (upd : UserUpdate) (s : DBState) : Except HErr UserResponse × DBState :=
  match get_current_user decode tok s with
  | .error e => (.error e, s)
  | .ok cu => update_user hashF user_id upd cu s

/-- DELETE /user/{id} as served (required auth resolved first). -/
def delete_user_endpoint (decode : String → JwtResult) (tok : TokenInput)
    (user_id : Nat) (s : DBState) : Except HErr String × DBState :=
  match get_current_user decode tok s with
  | .error e => (.error e, s)
  | .ok cu => delete_user user_id cu s

/-- POST /advertisement as served (optional auth never fails). -/
def create_ad_endpoint (decode : String → JwtResult) (tok : TokenInput)
    (payload : AdvertisementCreate) (s : DBState) :
    Except HErr Advertisement × DBState :=
  create_ad payload (get_optional_user decode tok s) s

/-- PATCH /advertisement/{id} as served (optional auth never fails). -/
def update_ad_endpoint (decode : String → JwtResult) (tok : TokenInput)
    (ad_id : Nat) (upd : AdvertisementUpdate) (s : DBState) :
    Except HErr Advertisement × DBState :=
  update_ad ad_id upd (get_optional_user decode tok s) s

/-- DELETE /advertisement/{id} as served (optional auth never fails). -/
def delete_ad_endpoint (decode : String → JwtResult) (tok : TokenInput)
    (ad_id : Nat) (s : DBState) : Except HErr String × DBState :=
  delete_ad ad_id (get_optional_user decode tok s) s

/-! Concrete fixtures used by witnesses and counterexamples. -/

/-- Regular user "alice", id 1. -/
def aliceU : User := ⟨1, "alice", "#pw1", "user"⟩

/-- Admin user "root", id 2. -/
def adminU : User := ⟨2, "root", "#pw2", "admin"⟩

/-- Regular user "bob", id 3. -/
def bobU : User := ⟨3, "bob", "#pw3", "user"⟩

/-- Advertisement id 1, owned by alice. -/
def ad1 : Advertisement := ⟨1, "bike", "red bike", 10, "alice", 0, some 1⟩

/-- Advertisement id 2 with a null owner_id (legacy/unowned row). -/
def ad2 : Advertisement := ⟨2, "car", "old car", 500, "bob", 0, none⟩

/-- A populated store with both users and both advertisements. -/
def st0 : DBState := ⟨[aliceU, adminU, bobU], [ad1, ad2], 4, 3, 7⟩

/-- PATCH body `{"price": 10}` — only the price field is set. -/
def priceOnly : AdvertisementUpdate := ⟨none, none, some 10, none⟩

/-- PATCH body `{"group": "admin"}` — only the group field is set. -/
def groupOnly : UserUpdate := ⟨none, none, some "admin"⟩

/-- A decoder for which every token string fails verification. -/
def decodeFail : String → JwtResult := fun _ => .jwtError

/-- A decoder for which every token string decodes with subject `name`. -/
def decodeAs (name : String) : String → JwtResult :=
  fun _ => .payload (some name)

/-- A concrete stand-in for the bcrypt hasher in witness instantiations. -/
def idHash : String → String := fun p => "#" ++ p

/-! Helper lemmas shared by the claim theorems. -/

/-- List.find? commutes with mapping a function that preserves the
predicate. -/
theorem find?_map_pres {α : Type} (f : α → α) (p : α → Bool)
    (hp : ∀ a, p (f a) = p a) :
    ∀ l : List α, (l.map f).find? p = (l.find? p).map f := by
  intro l
  induction l with
  | nil => rfl
  | cons a t ih =>
    simp only [List.map_cons]
    by_cases h : p a = true
    · rw [List.find?_cons_of_pos _ (by rw [hp]; exact h),
        List.find?_cons_of_pos _ h]
      rfl
    · have h' : ¬ p (f a) = true := by rw [hp]; exact h
      rw [List.find?_cons_of_neg _ h', List.find?_cons_of_neg _ h, ih]

/-- An update payload with no field set changes nothing when applied. -/
theorem applyAdUpdate_empty (a : Advertisement) (upd : AdvertisementUpdate)
    (h : adUpdEmpty upd = true) : applyAdUpdate a upd = a := by
  simp only [adUpdEmpty, Bool.and_eq_true, Option.isNone_iff_eq_none] at h
  obtain ⟨⟨⟨h1, h2⟩, h3⟩, h4⟩ := h
  simp [applyAdUpdate, h1, h2, h3, h4]

/-- A user-update payload with no field set changes nothing when applied. -/
theorem applyUserUpdate_empty (hashF : String → String) (u : User)
    (upd : UserUpdate) (h : userUpdEmpty upd = true) :
    applyUserUpdate hashF u upd = u := by
  simp only [userUpdEmpty, Bool.and_eq_true, Option.isNone_iff_eq_none] at h
  obtain ⟨⟨h1, h2⟩, h3⟩ := h
  simp [applyUserUpdate, h1, h2, h3]

/-- When the target row exists, the advertisement write step succeeds and
returns exactly the row with the payload applied. -/
theorem ad_write_spec (ad_id : Nat) (upd : AdvertisementUpdate)
    (ad : Advertisement) (s : DBState) (h : findAdById s ad_id = some ad) :
    ∃ s2, ad_write ad_id upd ad s = (.ok (applyAdUpdate ad upd), s2) := by
  have hid : (ad.id == ad_id) = true := by
    have h2 : s.ads.find? (fun a => a.id == ad_id) = some ad := h
    simpa using List.find?_some h2
  unfold ad_write
  by_cases he : adUpdEmpty upd = true
  · rw [if_pos he, applyAdUpdate_empty ad upd he]
    exact ⟨s, rfl⟩
  · rw [if_neg he]
    have hmap : findAdById (adWriteState ad_id upd s) ad_id =
        some (applyAdUpdate ad upd) := by
      show (s.ads.map (fun a =>
          if a.id == ad_id then applyAdUpdate a upd else a)).find?
          (fun a => a.id == ad_id) = some (applyAdUpdate ad upd)
      rw [find?_map_pres _ _ ?hp]
      case hp =>
        intro a
        cases hc : (a.id == ad_id) with
        | true => simp [hc, applyAdUpdate]
        | false => simp [hc]
      show ((findAdById s ad_id).map _) = _
      rw [h, Option.map_some', if_pos hid]
    rw [hmap]
    exact ⟨_, rfl⟩

/-- When the target row exists, the user write step succeeds and returns
the serialization of the row with the payload applied. -/
theorem user_write_spec (hashF : String → String) (user_id : Nat)
    (upd : UserUpdate) (user : User) (s : DBState)
    (h : findUserById s user_id = some user) :
    ∃ s2, user_write hashF user_id upd user s =
      (.ok (toUserResponse (applyUserUpdate hashF user upd)), s2) := by
  have hid : (user.id == user_id) = true := by
    have h2 : s.users.find? (fun u => u.id == user_id) = some user := h
    simpa using List.find?_some h2
  unfold user_write
  by_cases he : userUpdEmpty upd = true
  · rw [if_pos he, applyUserUpdate_empty hashF user upd he]
    exact ⟨s, rfl⟩
  · rw [if_neg he]
    have hmap : findUserById (userWriteState hashF user_id upd s) user_id =
        some (applyUserUpdate hashF user upd) := by
      show (s.users.map (fun x =>
          if x.id == user_id then applyUserUpdate hashF x upd else x)).find?
          (fun x => x.id == user_id) = some (applyUserUpdate hashF user upd)
      rw [find?_map_pres _ _ ?hp]
      case hp =>
        intro x
        cases hc : (x.id == user_id) with
        | true => simp [hc, applyUserUpdate]
        | false => simp [hc]
      show ((findUserById s user_id).map _) = _
      rw [h, Option.map_some', if_pos hid]
    rw [hmap]
    exact ⟨_, rfl⟩

/-- On an existing advertisement, `update_ad` for an authenticated caller
reduces to the ownership gate followed by the write step. -/
theorem update_ad_auth_step (ad_id : Nat) (upd : AdvertisementUpdate)
    (u : User) (s : DBState) (ad : Advertisement)
    (h : findAdById s ad_id = some ad) :
    update_ad ad_id upd (some u) s =
      if u.group ≠ "admin" ∧ (ad.owner_id = none ∨ ad.owner_id ≠ some u.id)
      then (.error insufficientPermissions, s)
      else ad_write ad_id upd ad s := by
  unfold update_ad
  rw [h]

/-- On an existing advertisement, an anonymous `update_ad` yields the 401. -/
theorem update_ad_anon (ad_id : Nat) (upd : AdvertisementUpdate)
    (s : DBState) (ad : Advertisement) (h : findAdById s ad_id = some ad) :
    update_ad ad_id upd none s = (.error authRequired, s) := by
  unfold update_ad
  rw [h]

/-- On an existing advertisement, `delete_ad` for an authenticated caller
reduces to the ownership gate followed by the DELETE. -/
theorem delete_ad_auth_step (ad_id : Nat) (u : User) (s : DBState)
    (ad : Advertisement) (h : findAdById s ad_id = some ad) :
    delete_ad ad_id (some u) s =
      if u.group ≠ "admin" ∧ (ad.owner_id = none ∨ ad.owner_id ≠ some u.id)
      then (.error insufficientPermissions, s)
      else (.ok "Advertisement deleted",
        { s with ads := s.ads.filter (fun a => !(a.id == ad_id)) }) := by
  unfold delete_ad
  rw [h]

/-- On an existing advertisement, an anonymous `delete_ad` yields the 401. -/
theorem delete_ad_anon (ad_id : Nat) (s : DBState) (ad : Advertisement)
    (h : findAdById s ad_id = some ad) :
    delete_ad ad_id none s = (.error authRequired, s) := by
  unfold delete_ad
  rw [h]

/-- On an existing target user, `update_user` reduces to its permission
checks followed by the rename-uniqueness check and the write step. -/
theorem update_user_eq (hashF : String → String) (user_id : Nat)
    (upd : UserUpdate) (cu : User) (s : DBState) (target : User)
    (h : findUserById s user_id = some target) :
    update_user hashF user_id upd cu s =
      if cu.group ≠ "admin" ∧ cu.id ≠ user_id then
        (.error insufficientPermissions, s)
      else if upd.group ≠ none ∧ cu.group ≠ "admin" then
        (.error onlyAdminGroup, s)
      else if groupValueInvalid upd.group then
        (.error invalidGroup, s)
      else
        match upd.username with
        | some newName =>
          match findUserByUsername s newName with
          | some ex =>
            if ex.id ≠ user_id then (.error usernameConflict, s)
            else user_write hashF user_id upd target s
          | none => user_write hashF user_id upd target s
        | none => user_write hashF user_id upd target s := by
  unfold update_user
  rw [h]

/-! Claim theorems. -/

/-- Claim C3 (amended): in required-authentication mode, a token that fails
verification (or lacks a subject claim) and a token whose subject matches
no user record produce the identical Unauthenticated failure — the same
401 with the same detail and the same WWW-Authenticate challenge — so those
two cases are indistinguishable; an absent bearer token, however, is
rejected by the `HTTPBearer` extraction dependency with a distinct 403
"Not authenticated" response, so absence of a token is distinguishable
from a token for a deleted user. -/
theorem c3_required_auth_failure_channels (decode : String → JwtResult)
    (s : DBState) (t : String) :
    ((decode t = .jwtError ∨ decode t = .payload none ∨
        (∃ name, decode t = .payload (some name) ∧
          findUserByUsername s name = none)) →
      get_current_user decode (.present t) s = .error credentialsException) ∧
    get_current_user decode .absent s = .error notAuthenticated ∧
    notAuthenticated ≠ credentialsException := by
  refine ⟨?_, rfl, by decide⟩
  rintro (hd | hd | ⟨name, hd, hf⟩)
  · simp [get_current_user, hd]
  · simp [get_current_user, hd]
  · simp [get_current_user, hd, hf]

/-- Witness for C3 (amended) at concrete inputs: an invalid token and a
token for the nonexistent user "ghost" both yield the credentials 401. -/
theorem c3_required_auth_failure_channels_witness :
    get_current_user decodeFail (.present "tok") st0 =
      .error credentialsException ∧
    get_current_user (decodeAs "ghost") (.present "tok") st0 =
      .error credentialsException :=
  ⟨(c3_required_auth_failure_channels decodeFail st0 "tok").1 (Or.inl rfl),
   (c3_required_auth_failure_channels (decodeAs "ghost") st0 "tok").1
     (Or.inr (Or.inr ⟨"ghost", rfl, by decide⟩))⟩

/-- Counterexample to C3 as stated: with a decoder rejecting every token,
the absent-token failure (403 "Not authenticated", no challenge, raised by
the HTTPBearer dependency) differs from the invalid-token failure (401
"Could not validate credentials" with a challenge), so the three failure
cases are not all identical. -/
theorem c3_counterexample :
    get_current_user decodeFail .absent st0 = .error notAuthenticated ∧
    get_current_user decodeFail (.present "tok") st0 =
      .error credentialsException ∧
    notAuthenticated ≠ credentialsException :=
  ⟨rfl, rfl, by decide⟩

/-- Claim C4: in optional-authentication mode identity resolution never
fails — `get_optional_user` is a total function into `Option User` (no
exception channel exists in its type), and an absent bearer token, a token
failing verification, a token with no subject claim, and a token whose
subject matches no user record all resolve to the anonymous state `none`. -/
theorem c4_optional_resolution_anonymous (decode : String → JwtResult)
    (s : DBState) (t : String) :
    get_optional_user decode .absent s = none ∧
    (decode t = .jwtError → get_optional_user decode (.present t) s = none) ∧
    (decode t = .payload none →
      get_optional_user decode (.present t) s = none) ∧
    (∀ name, decode t = .payload (some name) →
      findUserByUsername s name = none →
      get_optional_user decode (.present t) s = none) := by
  refine ⟨rfl, ?_, ?_, ?_⟩
  · intro hd
    simp [get_optional_user, hd]
  · intro hd
    simp [get_optional_user, hd]
  · intro name hd hf
    simp [get_optional_user, hd, hf]

/-- Witness for C4 at concrete inputs: no token, an invalid token, and a
token for the nonexistent user "ghost" all resolve to anonymous. -/
theorem c4_optional_resolution_anonymous_witness :
    get_optional_user decodeFail .absent st0 = none ∧
    get_optional_user decodeFail (.present "tok") st0 = none ∧
    get_optional_user (decodeAs "ghost") (.present "tok") st0 = none :=
  ⟨(c4_optional_resolution_anonymous decodeFail st0 "tok").1,
   (c4_optional_resolution_anonymous decodeFail st0 "tok").2.1 rfl,
   (c4_optional_resolution_anonymous (decodeAs "ghost") st0 "tok").2.2.2
     "ghost" rfl (by decide)⟩

/-- Claim C5: registering a username that already belongs to a user fails
with the uniqueness-violation (Conflict) outcome of the error taxonomy and
leaves the store unchanged — no new user row is created.  In the source
the rejection is `HTTPException(400, "Username already registered")`; the
spec taxonomy assigns no transport status to Conflict. -/
theorem c5_duplicate_registration_conflict (hashF : String → String)
    (payload : UserCreate) (s : DBState) (ex : User)
    (h : findUserByUsername s payload.username = some ex) :
    create_user hashF payload s = (.error usernameConflict, s) := by
  unfold create_user
  rw [h]

/-- Witness for C5: a second registration of "alice" is rejected and the
store is unchanged. -/
theorem c5_duplicate_registration_conflict_witness :
    create_user idHash ⟨"alice", "pw9", "user"⟩ st0 =
      (.error usernameConflict, st0) :=
  c5_duplicate_registration_conflict idHash ⟨"alice", "pw9", "user"⟩ st0
    aliceU (by decide)

/-- Claim C10: registration takes the new user's group directly from the
request payload — `create_user` has no identity input at all (the source
endpoint declares no authentication dependency), so an anonymous caller can
register a user with group "admin"; only group values outside
{"user", "admin"} are rejected. -/
theorem c10_registration_group_from_payload (hashF : String → String)
    (payload : UserCreate) (s : DBState)
    (hfresh : findUserByUsername s payload.username = none) :
    ((payload.group = "user" ∨ payload.group = "admin") →
      create_user hashF payload s =
        (.ok ⟨s.nextUserId, payload.username, payload.group⟩,
          { s with
            users := s.users ++
              [⟨s.nextUserId, payload.username, hashF payload.password,
                payload.group⟩],
            nextUserId := s.nextUserId + 1 })) ∧
    ((payload.group ≠ "user" ∧ payload.group ≠ "admin") →
      create_user hashF payload s = (.error invalidGroup, s)) := by
  constructor
  · intro hg
    have hnc : ¬(payload.group ≠ "user" ∧ payload.group ≠ "admin") := by
      rcases hg with hg | hg <;> simp [hg]
    unfold create_user
    rw [hfresh, if_neg hnc]
    rfl
  · intro hg
    unfold create_user
    rw [hfresh, if_pos hg]

/-- Witness for C10: an unauthenticated registration of "eve" with group
"admin" succeeds and stores that group; group "root" is rejected. -/
theorem c10_registration_group_from_payload_witness :
    create_user idHash ⟨"eve", "pw4", "admin"⟩ st0 =
      (.ok ⟨4, "eve", "admin"⟩,
        { st0 with
          users := st0.users ++ [⟨4, "eve", "#pw4", "admin"⟩],
          nextUserId := 5 }) ∧
    create_user idHash ⟨"eve", "pw4", "root"⟩ st0 =
      (.error invalidGroup, st0) :=
  ⟨(c10_registration_group_from_payload idHash ⟨"eve", "pw4", "admin"⟩ st0
      (by decide)).1 (Or.inr rfl),
   (c10_registration_group_from_payload idHash ⟨"eve", "pw4", "root"⟩ st0
      (by decide)).2 ⟨by decide, by decide⟩⟩

/-- Claim C1: for update and delete of an existing advertisement — an
anonymous identity is denied with the 401; an admin identity is allowed
regardless of owner_id; a non-admin identity is denied with the 403 when
owner_id is null, and otherwise is allowed exactly when its id equals
owner_id (403 when it differs). -/
theorem c1_ad_mutation_policy (ad_id : Nat) (upd : AdvertisementUpdate)
    (s : DBState) (ad : Advertisement) (h : findAdById s ad_id = some ad) :
    (update_ad ad_id upd none s = (.error authRequired, s) ∧
     delete_ad ad_id none s = (.error authRequired, s)) ∧
    (∀ u : User, u.group = "admin" →
      (∃ r s2, update_ad ad_id upd (some u) s = (.ok r, s2)) ∧
      (∃ s2, delete_ad ad_id (some u) s =
        (.ok "Advertisement deleted", s2))) ∧
    (∀ u : User, u.group ≠ "admin" → ad.owner_id = none →
      update_ad ad_id upd (some u) s = (.error insufficientPermissions, s) ∧
      delete_ad ad_id (some u) s = (.error insufficientPermissions, s)) ∧
    (∀ u : User, u.group ≠ "admin" → ∀ o, ad.owner_id = some o →
      ((u.id = o →
        (∃ r s2, update_ad ad_id upd (some u) s = (.ok r, s2)) ∧
        (∃ s2, delete_ad ad_id (some u) s =
          (.ok "Advertisement deleted", s2))) ∧
       (u.id ≠ o →
        update_ad ad_id upd (some u) s =
          (.error insufficientPermissions, s) ∧
        delete_ad ad_id (some u) s =
          (.error insufficientPermissions, s)))) := by
  refine ⟨⟨update_ad_anon ad_id upd s ad h, delete_ad_anon ad_id s ad h⟩,
    ?_, ?_, ?_⟩
  · intro u hadmin
    have hnc : ¬(u.group ≠ "admin" ∧
        (ad.owner_id = none ∨ ad.owner_id ≠ some u.id)) :=
      fun hc => hc.1 hadmin
    obtain ⟨s2, hw⟩ := ad_write_spec ad_id upd ad s h
    constructor
    · exact ⟨applyAdUpdate ad upd, s2, by
        rw [update_ad_auth_step ad_id upd u s ad h, if_neg hnc, hw]⟩
    · exact ⟨_, by rw [delete_ad_auth_step ad_id u s ad h, if_neg hnc]⟩
  · intro u hu hnone
    have hc : u.group ≠ "admin" ∧
        (ad.owner_id = none ∨ ad.owner_id ≠ some u.id) :=
      ⟨hu, Or.inl hnone⟩
    exact ⟨by rw [update_ad_auth_step ad_id upd u s ad h, if_pos hc],
      by rw [delete_ad_auth_step ad_id u s ad h, if_pos hc]⟩
  · intro u hu o ho
    constructor
    · intro hid
      have hnc : ¬(u.group ≠ "admin" ∧
          (ad.owner_id = none ∨ ad.owner_id ≠ some u.id)) := by
        rintro ⟨-, hd | hd⟩
        · rw [ho] at hd
          exact Option.noConfusion hd
        · rw [ho, hid] at hd
          exact hd rfl
      obtain ⟨s2, hw⟩ := ad_write_spec ad_id upd ad s h
      constructor
      · exact ⟨applyAdUpdate ad upd, s2, by
          rw [update_ad_auth_step ad_id upd u s ad h, if_neg hnc, hw]⟩
      · exact ⟨_, by rw [delete_ad_auth_step ad_id u s ad h, if_neg hnc]⟩
    · intro hid
      have hc : u.group ≠ "admin" ∧
          (ad.owner_id = none ∨ ad.owner_id ≠ some u.id) := by
        refine ⟨hu, Or.inr ?_⟩
        rw [ho]
        intro hx
        exact hid (Option.some.inj hx).symm
      exact ⟨by rw [update_ad_auth_step ad_id upd u s ad h, if_pos hc],
        by rw [delete_ad_auth_step ad_id u s ad h, if_pos hc]⟩

/-- Witness for C1 at concrete inputs: anonymous update of ad 1 → 401;
bob (id 3) updating alice's ad 1 → 403; alice (id 1) deleting the unowned
ad 2 → 403. -/
theorem c1_ad_mutation_policy_witness :
    update_ad 1 priceOnly none st0 = (.error authRequired, st0) ∧
    update_ad 1 priceOnly (some bobU) st0 =
      (.error insufficientPermissions, st0) ∧
    delete_ad 2 (some aliceU) st0 = (.error insufficientPermissions, st0) :=
  ⟨(c1_ad_mutation_policy 1 priceOnly st0 ad1 (by decide)).1.1,
   (((c1_ad_mutation_policy 1 priceOnly st0 ad1 (by decide)).2.2.2
      bobU (by decide) 1 rfl).2 (by decide)).1,
   ((c1_ad_mutation_policy 2 priceOnly st0 ad2 (by decide)).2.2.1
      aliceU (by decide) rfl).2⟩

/-- Claim C2: in a user-profile update, a payload that carries the `group`
field succeeds only for an admin caller — any non-admin caller (including
one updating their own profile) is denied with a 403 — and conversely a
successful update whose payload carried `group` implies the caller was
admin. -/
theorem c2_group_change_requires_admin (hashF : String → String)
    (user_id : Nat) (upd : UserUpdate) (cu : User) (s : DBState)
    (target : User) (h : findUserById s user_id = some target) :
    (∀ g, upd.group = some g → cu.group ≠ "admin" →
      ∃ e, (update_user hashF user_id upd cu s).1 = .error e ∧
        e.status = 403) ∧
    (∀ resp s2, update_user hashF user_id upd cu s = (.ok resp, s2) →
      upd.group ≠ none → cu.group = "admin") := by
  constructor
  · intro g hg hadm
    rw [update_user_eq hashF user_id upd cu s target h]
    by_cases hc1 : cu.group ≠ "admin" ∧ cu.id ≠ user_id
    · rw [if_pos hc1]
      exact ⟨insufficientPermissions, rfl, rfl⟩
    · rw [if_neg hc1, if_pos ⟨by simp [hg], hadm⟩]
      exact ⟨onlyAdminGroup, rfl, rfl⟩
  · intro resp s2 hok hgne
    by_cases hadm : cu.group = "admin"
    · exact hadm
    · exfalso
      rw [update_user_eq hashF user_id upd cu s target h] at hok
      by_cases hc1 : cu.group ≠ "admin" ∧ cu.id ≠ user_id
      · rw [if_pos hc1] at hok
        simp at hok
      · rw [if_neg hc1, if_pos ⟨hgne, hadm⟩] at hok
        simp at hok

/-- Witness for C2: bob (non-admin, id 3) updating his own profile with a
payload whose only field is `group` is denied with a 403. -/
theorem c2_group_change_requires_admin_witness :
    ∃ e, (update_user idHash 3 groupOnly bobU st0).1 = .error e ∧
      e.status = 403 :=
  (c2_group_change_requires_admin idHash 3 groupOnly bobU st0 bobU
    (by decide)).1 "admin" rfl (by decide)

/-- Claim C8: partial updates apply exactly the fields present in the
payload — every absent field of an advertisement or user update keeps its
stored value — and a price-only advertisement update leaves title,
description and author unchanged through the full update handler. -/
theorem c8_partial_update_frame (hashF : String → String)
    (a : Advertisement) (upd : AdvertisementUpdate) (u : User)
    (uu : UserUpdate) :
    ((upd.title = none → (applyAdUpdate a upd).title = a.title) ∧
     (upd.description = none →
       (applyAdUpdate a upd).description = a.description) ∧
     (upd.price = none → (applyAdUpdate a upd).price = a.price) ∧
     (upd.author = none → (applyAdUpdate a upd).author = a.author)) ∧
    ((uu.username = none →
       (applyUserUpdate hashF u uu).username = u.username) ∧
     (uu.password = none →
       (applyUserUpdate hashF u uu).password = u.password) ∧
     (uu.group = none → (applyUserUpdate hashF u uu).group = u.group)) ∧
    (∀ s ad_id ad0 p ad2 s2, findAdById s ad_id = some ad0 →
      update_ad ad_id ⟨none, none, some p, none⟩ (some u) s =
        (.ok ad2, s2) →
      ad2.title = ad0.title ∧ ad2.description = ad0.description ∧
        ad2.author = ad0.author ∧ ad2.price = p) := by
  refine ⟨⟨?_, ?_, ?_, ?_⟩, ⟨?_, ?_, ?_⟩, ?_⟩
  · intro ht
    simp [applyAdUpdate, ht]
  · intro ht
    simp [applyAdUpdate, ht]
  · intro ht
    simp [applyAdUpdate, ht]
  · intro ht
    simp [applyAdUpdate, ht]
  · intro ht
    simp [applyUserUpdate, ht]
  · intro ht
    simp [applyUserUpdate, ht]
  · intro ht
    simp [applyUserUpdate, ht]
  · intro s ad_id ad0 p ad2 s2 hfind hok
    rw [update_ad_auth_step ad_id ⟨none, none, some p, none⟩ u s ad0 hfind]
      at hok
    by_cases hc : u.group ≠ "admin" ∧
        (ad0.owner_id = none ∨ ad0.owner_id ≠ some u.id)
    · rw [if_pos hc] at hok
      simp at hok
    · rw [if_neg hc] at hok
      obtain ⟨s3, hw⟩ :=
        ad_write_spec ad_id ⟨none, none, some p, none⟩ ad0 s hfind
      rw [hw] at hok
      have hx : applyAdUpdate ad0 ⟨none, none, some p, none⟩ = ad2 := by
        have := congrArg Prod.fst hok
        simpa using this
      subst hx
      exact ⟨rfl, rfl, rfl, rfl⟩

/-- Witness for C8: applying a price-only payload to ad 1 through the
handler keeps title, description and author. -/
theorem c8_partial_update_frame_witness :
    (applyAdUpdate ad1 priceOnly).title = ad1.title ∧
    ∀ ad2 s2, update_ad 1 priceOnly (some aliceU) st0 = (.ok ad2, s2) →
      ad2.title = ad1.title ∧ ad2.description = ad1.description ∧
        ad2.author = ad1.author ∧ ad2.price = 10 :=
  ⟨(c8_partial_update_frame idHash ad1 priceOnly aliceU groupOnly).1.1 rfl,
   fun ad2 s2 hok =>
     (c8_partial_update_frame idHash ad1 priceOnly aliceU groupOnly).2.2
       st0 1 ad1 10 ad2 s2 (by decide) hok⟩

/-- Claim C9: an advertisement's owner_id is bound at creation to the id of
the authenticated creator, the update schema carries no owner_id field so
applying any update payload preserves owner_id, and any successful update
of an existing advertisement leaves its owner_id unchanged. -/
theorem c9_owner_id_immutable (payload : AdvertisementCreate) (u : User)
    (s : DBState) :
    (create_ad payload (some u) s =
      (.ok ⟨s.nextAdId, payload.title, payload.description, payload.price,
          payload.author, s.now, some u.id⟩,
        { s with
          ads := s.ads ++
            [⟨s.nextAdId, payload.title, payload.description, payload.price,
              payload.author, s.now, some u.id⟩],
          nextAdId := s.nextAdId + 1 })) ∧
    (∀ a upd, (applyAdUpdate a upd).owner_id = a.owner_id) ∧
    (∀ ad_id upd cu ad ad2 s2, findAdById s ad_id = some ad →
      update_ad ad_id upd cu s = (.ok ad2, s2) →
      ad2.owner_id = ad.owner_id) := by
  refine ⟨rfl, fun a upd => rfl, ?_⟩
  intro ad_id upd cu ad ad2 s2 hfind hok
  cases cu with
  | none =>
    rw [update_ad_anon ad_id upd s ad hfind] at hok
    simp at hok
  | some u2 =>
    rw [update_ad_auth_step ad_id upd u2 s ad hfind] at hok
    by_cases hc : u2.group ≠ "admin" ∧
        (ad.owner_id = none ∨ ad.owner_id ≠ some u2.id)
    · rw [if_pos hc] at hok
      simp at hok
    · rw [if_neg hc] at hok
      obtain ⟨s3, hw⟩ := ad_write_spec ad_id upd ad s hfind
      rw [hw] at hok
      have hx : applyAdUpdate ad upd = ad2 := by
        have := congrArg Prod.fst hok
        simpa using this
      rw [← hx]
      rfl

/-- Witness for C9: alice creating an advertisement binds owner_id to her
id, and her successful price update of ad 1 preserves owner_id. -/
theorem c9_owner_id_immutable_witness :
    create_ad ⟨"sofa", "blue sofa", 30, "alice"⟩ (some aliceU) st0 =
      (.ok ⟨3, "sofa", "blue sofa", 30, "alice", 7, some 1⟩,
        { st0 with
          ads := st0.ads ++ [⟨3, "sofa", "blue sofa", 30, "alice", 7, some 1⟩],
          nextAdId := 4 }) ∧
    ∀ ad2 s2, update_ad 1 priceOnly (some aliceU) st0 = (.ok ad2, s2) →
      ad2.owner_id = ad1.owner_id :=
  ⟨(c9_owner_id_immutable ⟨"sofa", "blue sofa", 30, "alice"⟩ aliceU st0).1,
   fun ad2 s2 hok =>
     (c9_owner_id_immutable ⟨"sofa", "blue sofa", 30, "alice"⟩ aliceU
       st0).2.2 1 priceOnly (some aliceU) ad1 ad2 s2 (by decide) hok⟩

/-- Claim C6 (amended): every 401 produced by the required-mode resolver
carries the WWW-Authenticate "Bearer" challenge, but the 401s of the
optional-auth advertisement endpoints ("Authentication required" from
create/update/delete advertisement) and the login 401 carry no challenge
header — so not every Unauthenticated response includes a
re-authentication hint. -/
theorem c6_challenge_headers (decode : String → JwtResult) (s : DBState)
    (tok : TokenInput) :
    (∀ e, get_current_user decode tok s = .error e → e.status = 401 →
      e.wwwAuthenticate = some "Bearer") ∧
    (∀ payload, create_ad payload none s = (.error authRequired, s)) ∧
    (∀ ad_id upd ad, findAdById s ad_id = some ad →
      update_ad ad_id upd none s = (.error authRequired, s) ∧
      delete_ad ad_id none s = (.error authRequired, s)) ∧
    (∀ verifyPw issueTok req, findUserByUsername s req.username = none →
      login verifyPw issueTok req s = .error loginFailed) ∧
    authRequired.status = 401 ∧ authRequired.wwwAuthenticate = none ∧
    loginFailed.status = 401 ∧ loginFailed.wwwAuthenticate = none := by
  refine ⟨?_, fun payload => rfl, ?_, ?_, rfl, rfl, rfl, rfl⟩
  · intro e he h401
    cases tok with
    | absent =>
      have he2 : Except.error (ε := HErr) (α := User) notAuthenticated =
          .error e := he
      have hne : notAuthenticated = e := by injection he2
      rw [← hne] at h401
      exact absurd h401 (by decide)
    | present t =>
      cases hd : decode t with
      | jwtError =>
        simp only [get_current_user, hd] at he
        have hce : credentialsException = e := by injection he
        rw [← hce]
        rfl
      | payload sub =>
        cases sub with
        | none =>
          simp only [get_current_user, hd] at he
          have hce : credentialsException = e := by injection he
          rw [← hce]
          rfl
        | some name =>
          cases hf : findUserByUsername s name with
          | none =>
            simp only [get_current_user, hd, hf] at he
            have hce : credentialsException = e := by injection he
            rw [← hce]
            rfl
          | some u =>
            simp only [get_current_user, hd, hf] at he
            exact absurd he (by simp)
  · intro ad_id upd ad hfind
    exact ⟨update_ad_anon ad_id upd s ad hfind,
      delete_ad_anon ad_id s ad hfind⟩
  · intro verifyPw issueTok req hf
    unfold login
    rw [hf]

/-- Witness for C6 (amended) at concrete inputs. -/
theorem c6_challenge_headers_witness :
    create_ad ⟨"bike", "red bike", 10, "alice"⟩ none st0 =
      (.error authRequired, st0) ∧
    update_ad 1 priceOnly none st0 = (.error authRequired, st0) ∧
    credentialsException.wwwAuthenticate = some "Bearer" :=
  ⟨(c6_challenge_headers decodeFail st0 (.present "tok")).2.1 _,
   ((c6_challenge_headers decodeFail st0 (.present "tok")).2.2.1 1 priceOnly
      ad1 (by decide)).1,
   (c6_challenge_headers decodeFail st0 (.present "tok")).1
     credentialsException rfl rfl⟩

/-- Counterexample to C6 as stated: the anonymous create-advertisement
response is a 401 Unauthenticated outcome that carries no WWW-Authenticate
challenge header. -/
theorem c6_counterexample :
    create_ad ⟨"bike", "red bike", 10, "alice"⟩ none st0 =
      (.error authRequired, st0) ∧
    authRequired.status = 401 ∧ authRequired.wwwAuthenticate = none :=
  ⟨rfl, rfl, rfl⟩

/-- Claim C7 (amended): a missing advertisement id yields NotFound for
every caller including anonymous ones (existence precedes the
authentication check on those optional-auth endpoints); on the user
endpoints the existence-before-authorization ordering holds only for
callers that pass required authentication — a caller whose required
authentication fails receives that authentication failure, never
NotFound. -/
theorem c7_not_found_precedence (decode : String → JwtResult)
    (hashF : String → String) (tok : TokenInput) (rid : Nat)
    (upd : AdvertisementUpdate) (uupd : UserUpdate) (s : DBState) :
    (findAdById s rid = none →
      update_ad_endpoint decode tok rid upd s = (.error adNotFound, s) ∧
      delete_ad_endpoint decode tok rid s = (.error adNotFound, s)) ∧
    (∀ cu, get_current_user decode tok s = .ok cu →
      findUserById s rid = none →
      update_user_endpoint decode hashF tok rid uupd s =
        (.error userNotFound, s) ∧
      delete_user_endpoint decode tok rid s = (.error userNotFound, s)) ∧
    (∀ e, get_current_user decode tok s = .error e →
      update_user_endpoint decode hashF tok rid uupd s = (.error e, s) ∧
      delete_user_endpoint decode tok rid s = (.error e, s)) := by
  refine ⟨?_, ?_, ?_⟩
  · intro hf
    constructor
    · unfold update_ad_endpoint update_ad
      rw [hf]
    · unfold delete_ad_endpoint delete_ad
      rw [hf]
  · intro cu hcu hf
    constructor
    · unfold update_user_endpoint
      rw [hcu]
      show update_user hashF rid uupd cu s = (.error userNotFound, s)
      unfold update_user
      rw [hf]
    · unfold delete_user_endpoint
      rw [hcu]
      show delete_user rid cu s = (.error userNotFound, s)
      unfold delete_user
      rw [hf]
  · intro e he
    constructor
    · unfold update_user_endpoint
      rw [he]
    · unfold delete_user_endpoint
      rw [he]

/-- Witness for C7 (amended): anonymous update of nonexistent ad 99 → 404;
admin "root" updating nonexistent user 99 → 404. -/
theorem c7_not_found_precedence_witness :
    update_ad_endpoint decodeFail .absent 99 priceOnly st0 =
      (.error adNotFound, st0) ∧
    update_user_endpoint (decodeAs "root") idHash (.present "tok") 99
      ⟨none, none, none⟩ st0 = (.error userNotFound, st0) :=
  ⟨((c7_not_found_precedence decodeFail idHash .absent 99 priceOnly
      ⟨none, none, none⟩ st0).1 (by decide)).1,
   ((c7_not_found_precedence (decodeAs "root") idHash (.present "tok") 99
      priceOnly ⟨none, none, none⟩ st0).2.1 adminU rfl (by decide)).1⟩

/-- Counterexample to C7 as stated: a caller with an invalid bearer token
— an anonymous caller in the spec's identity terms — targeting the
nonexistent user id 99 receives the 401 credentials failure from the
required-auth dependency, not NotFound. -/
theorem c7_counterexample :
    findUserById st0 99 = none ∧
    update_user_endpoint decodeFail idHash (.present "tok") 99
      ⟨none, none, none⟩ st0 = (.error credentialsException, st0) ∧
    credentialsException.status = 401 :=
  ⟨by decide, rfl, rfl⟩

end Ads
